import Mathlib

/-!
Verification of the chat-demo conversation logic
(src/chat_demo/chat_demo/src/App.tsx).

The TypeScript `AiModel` union is erased at runtime to plain strings
("gemini" / "chatgpt" / "claude"), so provider identifiers are modelled as
`String`; the spec's providerA/providerB/providerC are gemini/chatgpt/claude.
Network I/O of the live provider is modelled by an explicit `FetchOutcome`
environment value; everything downstream of the `fetch` call is translated
from the source. The `isTyping` state field is the spec's `inFlight` flag,
and a bot message's `model` field is the spec's `provider` tag.
-/

/-- A chat message (interface `ChatMessage` in App.tsx): `model` is present
only on bot messages. -/
inductive Sender where
  | user
  | bot
  deriving DecidableEq, Repr

structure ChatMessage where
  text : String
  sender : Sender
  model : Option String
  deriving DecidableEq, Repr

/-- JavaScript `String.prototype.trim` (the source's `input.trim()`):
drop whitespace from both ends, written structurally so that the kernel
can evaluate it on literals. -/
def jsTrim (s : String) : String :=
  ⟨((s.data.dropWhile Char.isWhitespace).reverse.dropWhile Char.isWhitespace).reverse⟩

/-- One `parts` entry of a Gemini response candidate; `text` may be absent. -/
structure GeminiPart where
  text : Option String
  deriving DecidableEq, Repr

structure GeminiContent where
  parts : Option (List GeminiPart)
  deriving DecidableEq, Repr

structure GeminiCandidate where
  content : Option GeminiContent
  deriving DecidableEq, Repr

/-- The parsed JSON body of a Gemini API response: `result.candidates` may be
absent or an arbitrary (possibly empty) list. -/
structure GeminiResult where
  candidates : Option (List GeminiCandidate)
  deriving DecidableEq, Repr

/-- The body handed to `response.json()`: either a parse failure (the await
throws) or a parsed `GeminiResult`. -/
inductive JsonBody where
  | parseError
  | parsed (result : GeminiResult)
  deriving DecidableEq, Repr

/-- The outcome of the `fetch` call: a thrown exception (DNS, timeout, ...)
or a response with an HTTP status code and a body. -/
inductive FetchOutcome where
  | exn
  | success (status : Nat) (body : JsonBody)
  deriving DecidableEq, Repr

/-- `response.ok`: status in the inclusive range 200-299. -/
def responseOk (status : Nat) : Bool :=
  decide (200 ≤ status) && decide (status ≤ 299)

/-- The optional chain `result.candidates?.[0]` then
`candidate.content?.parts?.[0]?.text`: `some t` exactly when every step of
the chain is present, `none` when any step is absent. -/
def candidateText (result : GeminiResult) : Option String :=
  match result.candidates with
  | some (candidate :: _) =>
    match candidate.content with
    | some content =>
      match content.parts with
      | some (part :: _) => part.text
      | _ => none
    | none => none
  | _ => none

/-- Fallback returned from the `catch` block of `getGeminiResponse`. -/
def networkFallback : String :=
  "Oops! I seem to be having a network issue or an API issue. Please try again."

/-- Fallback returned when the success body has no truthy candidate text. -/
def noResponseFallback : String :=
  "I'm sorry, I couldn't generate a response. Please try again."

/-- `getGeminiResponse` from App.tsx, everything after the `fetch` call:
a non-ok status throws into the local `catch` (network fallback), a JSON
parse failure likewise; on a parsed body the guard is JavaScript truthiness
of `candidate && candidate.content?.parts?.[0]?.text`, so an absent path or
an empty string both take the "could not generate" fallback. The
`userMessage` argument only feeds the outbound payload, never the result. -/
def getGeminiResponse (userMessage : String) (outcome : FetchOutcome) : String :=
  match outcome with
  | .exn => networkFallback
  | .success status body =>
    if responseOk status then
      match body with
      | .parseError => networkFallback
      | .parsed result =>
        match candidateText result with
        | some text => if text = "" then noResponseFallback else text
        | none => noResponseFallback
    else networkFallback

/-- `getOpenAIResponse` from App.tsx: after a fixed delay, a canned string;
it takes no arguments and has no failure path. -/
def getOpenAIResponse : String :=
  "This is a response from the simulated ChatGPT. I can help you with creative writing, code snippets, and general knowledge."

/-- The inline canned string of the `claude` branch of `getBotResponse`. -/
def claudeMockResponse : String :=
  "Hello! I am the simulated Claude model. I am known for my coherent and thoughtful long-form responses."

/-- `getBotResponse` from App.tsx: a switch on the (runtime string) model
identifier, with a default branch for unrecognized identifiers. Only the
`gemini` branch consults the network environment. -/
def getBotResponse (userMessage : String) (model : String) (geminiOutcome : FetchOutcome) : String :=
  if model = "gemini" then getGeminiResponse userMessage geminiOutcome
  else if model = "chatgpt" then getOpenAIResponse
  else if model = "claude" then claudeMockResponse
  else "I'm not sure which model you want me to use."

/-- The component state of `App`: `messages`, `input`, `isTyping` (the
spec's inFlight flag) and `selectedModel`. -/
structure AppState where
  messages : List ChatMessage
  input : String
  isTyping : Bool
  selectedModel : String
  deriving DecidableEq, Repr

/-- What the `setTimeout` closure of `handleSendMessage` captured at
submission time: the trimmed input and the then-selected model. -/
structure PendingExchange where
  trimmedInput : String
  selectedModel : String
  deriving DecidableEq, Repr

/-- The synchronous part of `handleSendMessage`: an empty-after-trim input
returns early with no state change and no pending exchange; otherwise the
user message is appended, the input cleared, `isTyping` set, and the timeout
closure (capturing the trimmed input and current model) is scheduled. -/
def handleSendMessage (s : AppState) : AppState × Option PendingExchange :=
  let trimmedInput := jsTrim s.input
  if trimmedInput = "" then (s, none)
  else
    ({ s with
        messages := s.messages ++ [{ text := trimmedInput, sender := .user, model := none }],
        input := "",
        isTyping := true },
     some { trimmedInput := trimmedInput, selectedModel := s.selectedModel })

/-- The `setTimeout` callback of `handleSendMessage`, run against whatever
state is current when it fires: appends the bot message tagged with the
captured model and clears `isTyping`. -/
def completeExchange (s : AppState) (pending : PendingExchange) (geminiOutcome : FetchOutcome) : AppState :=
  let botResponseText := getBotResponse pending.trimmedInput pending.selectedModel geminiOutcome
  { s with
      messages := s.messages ++
        [{ text := botResponseText, sender := .bot, model := some pending.selectedModel }],
      isTyping := false }

/-- One full exchange with no interleaved events: submit, then the timeout
callback fires on the submit-produced state. -/
def runExchange (s : AppState) (geminiOutcome : FetchOutcome) : AppState :=
  match handleSendMessage s with
  | (s1, some pending) => completeExchange s1 pending geminiOutcome
  | (s1, none) => s1

/-- `handleModelChange` from App.tsx: sets the selected model and
unconditionally clears the message log. -/
def handleModelChange (s : AppState) (model : String) : AppState :=
  { s with selectedModel := model, messages := [] }

/-- Claim C1: for every submitted input whose trimmed text is non-empty, one
exchange appends exactly one user message carrying the trimmed text, followed
by exactly one bot message, in that order, and the in-flight (isTyping) flag
is false after completion. -/
theorem exchange_appends_user_then_bot (s : AppState) (geminiOutcome : FetchOutcome)
    (h : jsTrim s.input ≠ "") :
    (runExchange s geminiOutcome).messages =
      s.messages ++
        [{ text := jsTrim s.input, sender := .user, model := none },
         { text := getBotResponse (jsTrim s.input) s.selectedModel geminiOutcome,
           sender := .bot, model := some s.selectedModel }] ∧
    (runExchange s geminiOutcome).isTyping = false := by
  unfold runExchange handleSendMessage completeExchange
  simp [h]

/-- Claim C1 witness: submitting "hello" with chatgpt selected yields the user
message then the simulated-ChatGPT persona message tagged chatgpt, and the
in-flight flag is false. -/
theorem exchange_appends_user_then_bot_witness :
    jsTrim "hello" ≠ "" ∧
    (runExchange { messages := [], input := "hello", isTyping := false, selectedModel := "chatgpt" }
        FetchOutcome.exn).messages =
      [{ text := "hello", sender := .user, model := none },
       { text := getOpenAIResponse, sender := .bot, model := some "chatgpt" }] ∧
    (runExchange { messages := [], input := "hello", isTyping := false, selectedModel := "chatgpt" }
        FetchOutcome.exn).isTyping = false := by
  have h := exchange_appends_user_then_bot
    { messages := [], input := "hello", isTyping := false, selectedModel := "chatgpt" }
    FetchOutcome.exn (by decide)
  refine ⟨by decide, ?_, h.2⟩
  rw [h.1]
  decide

/-- Claim C2: a thrown fetch exception, a status outside 200-299, or a JSON
parse failure each make the live provider return the network fallback
string (the total function never raises). -/
theorem live_failure_returns_network_fallback (userMessage : String) (outcome : FetchOutcome)
    (h : outcome = FetchOutcome.exn ∨
        (∃ status body, outcome = FetchOutcome.success status body ∧ responseOk status = false) ∨
        (∃ status, outcome = FetchOutcome.success status JsonBody.parseError)) :
    getGeminiResponse userMessage outcome = networkFallback := by
  rcases h with h | ⟨status, body, rfl, hok⟩ | ⟨status, rfl⟩
  · subst h; rfl
  · simp [getGeminiResponse, hok]
  · by_cases hok : responseOk status <;> simp [getGeminiResponse, hok]

/-- Claim C2 witness: an HTTP 500 response returns the network fallback. -/
theorem live_failure_returns_network_fallback_witness :
    getGeminiResponse "hello"
      (FetchOutcome.success 500 (JsonBody.parsed { candidates := none })) = networkFallback :=
  live_failure_returns_network_fallback "hello" _
    (Or.inr (Or.inl ⟨500, JsonBody.parsed { candidates := none }, rfl, by decide⟩))

/-- Claim C3 counterexample: a 200 response whose candidates[0].content.
parts[0].text is present but equal to "" does not return that text; the
JavaScript truthiness guard sends it to the "could not generate" fallback. -/
theorem success_present_text_not_always_returned :
    candidateText
        { candidates := some [{ content := some { parts := some [{ text := some "" }] } }] } =
      some "" ∧
    getGeminiResponse "hi"
        (FetchOutcome.success 200
          (JsonBody.parsed
            { candidates := some [{ content := some { parts := some [{ text := some "" }] } }] })) =
      noResponseFallback ∧
    noResponseFallback ≠ "" :=
  ⟨rfl, rfl, by decide⟩

/-- Claim C3 (amended): on an ok-status parsed body, a present non-empty
candidate text is returned verbatim; an absent path or an empty text returns
the "could not generate" fallback. -/
theorem success_extracts_candidate_text (userMessage : String) (status : Nat)
    (result : GeminiResult) (h : responseOk status = true) :
    (∀ text, candidateText result = some text → text ≠ "" →
        getGeminiResponse userMessage (FetchOutcome.success status (JsonBody.parsed result)) = text) ∧
    ((candidateText result = none ∨ candidateText result = some "") →
        getGeminiResponse userMessage (FetchOutcome.success status (JsonBody.parsed result)) =
          noResponseFallback) := by
  constructor
  · intro text ht hne
    simp [getGeminiResponse, h, ht, hne]
  · rintro (ht | ht) <;> simp [getGeminiResponse, h, ht]

/-- Claim C3 witness: a 200 response with body
candidates[0].content.parts[0].text = "Hi there" returns "Hi there", and a
200 response with body having no candidates returns the fallback. -/
theorem success_extracts_candidate_text_witness :
    responseOk 200 = true ∧
    getGeminiResponse "hi"
        (FetchOutcome.success 200
          (JsonBody.parsed
            { candidates :=
                some [{ content := some { parts := some [{ text := some "Hi there" }] } }] })) =
      "Hi there" ∧
    getGeminiResponse "hi" (FetchOutcome.success 200 (JsonBody.parsed { candidates := none })) =
      noResponseFallback := by
  have h1 := success_extracts_candidate_text "hi" 200
    { candidates := some [{ content := some { parts := some [{ text := some "Hi there" }] } }] }
    (by decide)
  have h2 := success_extracts_candidate_text "hi" 200 { candidates := none } (by decide)
  exact ⟨by decide, h1.1 "Hi there" rfl (by decide), h2.2 (Or.inl rfl)⟩

/-- Claim C4: dispatch is a total function into strings, and any model
identifier outside gemini, chatgpt, claude takes the default branch with its
fixed fallback string. -/
theorem dispatch_unknown_model_fallback (userMessage : String) (model : String)
    (geminiOutcome : FetchOutcome)
    (h : model ≠ "gemini" ∧ model ≠ "chatgpt" ∧ model ≠ "claude") :
    getBotResponse userMessage model geminiOutcome =
      "I'm not sure which model you want me to use." := by
  simp [getBotResponse, h.1, h.2.1, h.2.2]

/-- Claim C4 witness: the unrecognized identifier "grok" gets the fixed
fallback string. -/
theorem dispatch_unknown_model_fallback_witness :
    getBotResponse "hi" "grok" FetchOutcome.exn =
      "I'm not sure which model you want me to use." :=
  dispatch_unknown_model_fallback "hi" "grok" FetchOutcome.exn
    ⟨by decide, by decide, by decide⟩

/-- Claim C5: the simulated providers ignore the user text and the network
environment: dispatch on chatgpt or claude returns that provider's fixed
persona string on every call. -/
theorem simulated_dispatch_pure_and_fixed (t1 t2 : String) (o1 o2 : FetchOutcome) :
    getBotResponse t1 "chatgpt" o1 = getBotResponse t2 "chatgpt" o2 ∧
    getBotResponse t1 "claude" o1 = getBotResponse t2 "claude" o2 ∧
    getBotResponse t1 "chatgpt" o1 = getOpenAIResponse ∧
    getBotResponse t1 "claude" o1 = claudeMockResponse :=
  ⟨rfl, rfl, rfl, rfl⟩

/-- Claim C6: whatever state the timeout callback fires against (the current
selection may have changed mid-flight), the appended bot message is tagged
with the model captured at submission time. -/
theorem bot_message_tagged_with_dispatch_model (s current : AppState)
    (pending : PendingExchange) (geminiOutcome : FetchOutcome)
    (h : (handleSendMessage s).2 = some pending) :
    pending.selectedModel = s.selectedModel ∧
    (completeExchange current pending geminiOutcome).messages =
      current.messages ++
        [{ text := getBotResponse pending.trimmedInput s.selectedModel geminiOutcome,
           sender := .bot, model := some s.selectedModel }] := by
  by_cases he : jsTrim s.input = ""
  · simp [handleSendMessage, he] at h
  · simp [handleSendMessage, he] at h
    rw [← h]
    exact ⟨rfl, rfl⟩

/-- Claim C6 witness: an exchange dispatched while gemini was selected still
tags its bot message gemini although the state it lands on has claude
selected. -/
theorem bot_message_tagged_with_dispatch_model_witness :
    (handleSendMessage
        { messages := [], input := "hi", isTyping := false, selectedModel := "gemini" }).2 =
      some { trimmedInput := "hi", selectedModel := "gemini" } ∧
    (completeExchange { messages := [], input := "", isTyping := true, selectedModel := "claude" }
        { trimmedInput := "hi", selectedModel := "gemini" } FetchOutcome.exn).messages =
      [{ text := getBotResponse "hi" "gemini" FetchOutcome.exn,
         sender := .bot, model := some "gemini" }] := by
  have h := bot_message_tagged_with_dispatch_model
    { messages := [], input := "hi", isTyping := false, selectedModel := "gemini" }
    { messages := [], input := "", isTyping := true, selectedModel := "claude" }
    { trimmedInput := "hi", selectedModel := "gemini" } FetchOutcome.exn (by decide)
  exact ⟨by decide, by rw [h.2]; rfl⟩

/-- Claim C7: changing the selected model clears the message log to empty,
from every state and for every target model. -/
theorem model_change_clears_messages (s : AppState) (model : String) :
    (handleModelChange s model).messages = [] :=
  rfl

/-- Claim C8: a submission whose input is empty after trimming changes
nothing: the state is returned unchanged and no exchange is scheduled. -/
theorem empty_submit_is_noop (s : AppState) (h : jsTrim s.input = "") :
    handleSendMessage s = (s, none) := by
  unfold handleSendMessage
  simp [h]

/-- Claim C8 witness: submitting the whitespace-only input "   " leaves the
state unchanged and schedules nothing. -/
theorem empty_submit_is_noop_witness :
    handleSendMessage { messages := [], input := "   ", isTyping := false, selectedModel := "gemini" } =
      ({ messages := [], input := "   ", isTyping := false, selectedModel := "gemini" }, none) :=
  empty_submit_is_noop
    { messages := [], input := "   ", isTyping := false, selectedModel := "gemini" } (by decide)

/-- Claim C9: a 200 response whose candidate text is present but empty
returns the "could not generate" fallback, and the live provider never
returns the empty string on any outcome. -/
theorem empty_candidate_text_falls_back (userMessage : String) (status : Nat)
    (result : GeminiResult)
    (h : responseOk status = true ∧ candidateText result = some "") :
    getGeminiResponse userMessage (FetchOutcome.success status (JsonBody.parsed result)) =
      noResponseFallback ∧
    ∀ outcome, getGeminiResponse userMessage outcome ≠ "" := by
  refine ⟨by simp [getGeminiResponse, h.1, h.2], ?_⟩
  intro outcome
  rcases outcome with _ | ⟨st, body⟩
  · show networkFallback ≠ ""
    decide
  · cases hok : responseOk st with
    | false =>
      simp only [getGeminiResponse]
      rw [hok]
      show networkFallback ≠ ""
      decide
    | true =>
      simp only [getGeminiResponse]
      rw [hok]
      rcases body with _ | r
      · show networkFallback ≠ ""
        decide
      · show (match candidateText r with
            | some text => if text = "" then noResponseFallback else text
            | none => noResponseFallback) ≠ ""
        cases hct : candidateText r with
        | none =>
          show noResponseFallback ≠ ""
          decide
        | some text =>
          show (if text = "" then noResponseFallback else text) ≠ ""
          by_cases hte : text = ""
          · rw [if_pos hte]
            decide
          · rw [if_neg hte]
            exact hte

/-- Claim C9 witness: a 200 response carrying an empty candidate text maps to
the fallback, and the exception outcome is not the empty string. -/
theorem empty_candidate_text_falls_back_witness :
    getGeminiResponse "hi"
        (FetchOutcome.success 200
          (JsonBody.parsed
            { candidates := some [{ content := some { parts := some [{ text := some "" }] } }] })) =
      noResponseFallback ∧
    getGeminiResponse "hi" FetchOutcome.exn ≠ "" := by
  have h := empty_candidate_text_falls_back "hi" 200
    { candidates := some [{ content := some { parts := some [{ text := some "" }] } }] }
    ⟨by decide, rfl⟩
  exact ⟨h.1, h.2 FetchOutcome.exn⟩

/-- Claim C10: re-selecting the already-current model still clears the
message log, and leaves the input field, the in-flight flag and the selected
model unchanged. -/
theorem same_model_change_still_clears (s : AppState) :
    (handleModelChange s s.selectedModel).messages = [] ∧
    (handleModelChange s s.selectedModel).input = s.input ∧
    (handleModelChange s s.selectedModel).isTyping = s.isTyping ∧
    (handleModelChange s s.selectedModel).selectedModel = s.selectedModel :=
  ⟨rfl, rfl, rfl, rfl⟩
